import Mathlib

/-!
Verification of the baseCamp lead similarity & deduplication engine.

Shallow embedding of the Python sources:
  - `src/services/duplicate_service.py` (contact matcher, message similarity,
    duplicate decision engine),
  - `src/services/vector_service.py` (embedding generation, `add_lead`,
    `find_similar_leads`),
  - `src/api/intake.py` (`process_lead_pipeline`).

Conventions of the embedding:
  - UUIDs are abstracted as natural numbers.  A field of type `Option UUID`
    models the Python union "a `UUID` object, or a string that may or may not
    parse as a UUID": `some u` is a valid id, `none` is a string on which
    `UUID(...)` raises `ValueError`.
  - Timestamp strings are abstracted by their parse outcome: `Option Int`
    (seconds since the Unix epoch, UTC); `none` models a string on which
    `datetime.fromisoformat` raises.  A metadata field `received_at :
    Option (Option Int)` distinguishes a missing/empty entry (`none`) from a
    present-but-unparsable one (`some none`) and a parseable one
    (`some (some t)`), because the Python code treats these differently
    (`metadata.get('received_at', default)` vs. truthiness vs. parse failure).
  - Python floats are modelled as rationals (`ℚ`); every IEEE float is a
    rational number, and all operations the claims depend on (subtraction,
    comparison, clamping, sorting) are exact.
  - Fallible Python calls are modelled with `Except String`; a `try/except`
    block becomes a `match` on the `Except` value.
  - External collaborators (the sentence-transformer encoder, the ChromaDB
    collection, the LLM service, the CRM client) are parameters of the
    embedded functions, supplied as `Except`/`Option`-valued inputs.
-/

/-- UUIDs abstracted as naturals. -/
abbrev UUID := Nat

/-- `ContactInfo` from `src/models` (the model package is referenced by every
service; fields as consumed by `duplicate_service.py` and
`vector_service.py`).  `none` models a `None` field; `some ""` models an
empty string, which Python treats as falsy exactly like `None`. -/
structure ContactInfo where
  email : Option String
  phone : Option String
  full_name : Option String
  company : Option String
  deriving Repr, DecidableEq

/-- Python truthiness of an optional string field: `None` and `""` are falsy. -/
def truthy : Option String → Bool
  | none => false
  | some s => !s.isEmpty

/-- The metadata dictionary stored with each lead in the vector index, as read
by `duplicate_service.py` (`_is_same_contact_from_metadata`,
`analyze_lead_for_duplicates`, `find_contact_history`).  Fields not consulted
by any claim (source, status, text hash, AI analysis) are omitted.
`received_at`: see the timestamp convention in the header comment;
`message`: `none` models a missing key (read back via `.get('message', '')`). -/
structure Metadata where
  message : Option String
  received_at : Option (Option Int)
  contact_email : Option String
  contact_phone : Option String
  contact_name : Option String
  deriving Repr, DecidableEq

/-- Python `str.lower()`.  (Defined over the character list because Lean's
built-in `String.toLower` does not reduce inside the kernel; ASCII-equivalent.) -/
def pyLower (s : String) : String :=
  String.mk (s.data.map Char.toLower)

/-- Python `str.strip()`: remove leading and trailing whitespace. -/
def pyStrip (s : String) : String :=
  String.mk (((s.data.dropWhile Char.isWhitespace).reverse.dropWhile
    Char.isWhitespace).reverse)

/-- Digits of a string, in order (`"".join(c for c in s if c.isdigit())`). -/
def digitsOf (s : String) : String :=
  String.mk (s.data.filter Char.isDigit)

/-- Python `s[-10:]`: the last 10 characters (the whole string if shorter). -/
def last10 (s : String) : String :=
  String.mk (s.data.drop (s.data.length - 10))

/-- `SmartDuplicateAnalyzer._is_same_contact_from_metadata`
(`duplicate_service.py` lines 189-206).  The email branch returns
unconditionally when both emails are truthy; the phone branch returns only
when both normalized phones have at least 10 digits, otherwise control falls
through to the name branch (that fall-through is the point of claim C8). -/
def is_same_contact_from_metadata (c : ContactInfo) (m : Metadata) : Bool :=
  if truthy c.email && truthy m.contact_email then
    pyLower (c.email.getD "") == pyLower (m.contact_email.getD "")
  else
    let phoneDecided : Option Bool :=
      if truthy c.phone && truthy m.contact_phone then
        let phone1 := digitsOf (c.phone.getD "")
        let phone2 := digitsOf (m.contact_phone.getD "")
        if 10 ≤ phone1.length ∧ 10 ≤ phone2.length then
          some (last10 phone1 == last10 phone2)
        else
          none
      else none
    match phoneDecided with
    | some b => b
    | none =>
      if truthy c.full_name && truthy m.contact_name then
        pyStrip (pyLower (c.full_name.getD "")) == pyStrip (pyLower (m.contact_name.getD ""))
      else
        false

/-- Modelled from the spec's words for claim C8 (§4.2 `SameContact`): strict
precedence email → phone → name, where the phone step unconditionally compares
the last 10 digits whenever both contacts have a (truthy) phone. -/
def sameContactSpecC8 (c : ContactInfo) (m : Metadata) : Bool :=
  if truthy c.email && truthy m.contact_email then
    pyLower (c.email.getD "") == pyLower (m.contact_email.getD "")
  else if truthy c.phone && truthy m.contact_phone then
    last10 (digitsOf (c.phone.getD "")) == last10 (digitsOf (m.contact_phone.getD ""))
  else if truthy c.full_name && truthy m.contact_name then
    pyStrip (pyLower (c.full_name.getD "")) == pyStrip (pyLower (m.contact_name.getD ""))
  else
    false

/-- The amended contact-matcher contract: precedence email → phone → name,
with the phone comparison applying only when both digit-stripped phones have
at least 10 digits; shorter phone numbers fall through to the name step. -/
def sameContactAmendedC8 (c : ContactInfo) (m : Metadata) : Bool :=
  if truthy c.email && truthy m.contact_email then
    pyLower (c.email.getD "") == pyLower (m.contact_email.getD "")
  else if (truthy c.phone && truthy m.contact_phone)
      && (decide (10 ≤ (digitsOf (c.phone.getD "")).length)
          && decide (10 ≤ (digitsOf (m.contact_phone.getD "")).length)) then
    last10 (digitsOf (c.phone.getD "")) == last10 (digitsOf (m.contact_phone.getD ""))
  else if truthy c.full_name && truthy m.contact_name then
    pyStrip (pyLower (c.full_name.getD "")) == pyStrip (pyLower (m.contact_name.getD ""))
  else
    false

/-! ### Message-to-message similarity (`duplicate_service.py` lines 96-137) -/

/-- Python `message.lower().split()`: split on whitespace runs, dropping empty
pieces, after lowercasing; accumulator carries the current word reversed. -/
def splitWordsAux : List Char → List Char → List (List Char)
  | [], acc => if acc.isEmpty then [] else [acc.reverse]
  | c :: rest, acc =>
    if c.isWhitespace then
      if acc.isEmpty then splitWordsAux rest []
      else acc.reverse :: splitWordsAux rest []
    else splitWordsAux rest (c :: acc)

/-- The set of words of a message as used by `_basic_text_similarity`:
`set(message.lower().split())`. -/
def wordsOf (message : String) : Finset String :=
  ((splitWordsAux (pyLower message).data []).map String.mk).toFinset

/-- `SmartDuplicateAnalyzer._basic_text_similarity` (lines 126-137): Jaccard
word-overlap similarity; `0.0` when either message has no words. -/
def basicTextSimilarity (message1 message2 : String) : ℚ :=
  let words1 := wordsOf message1
  let words2 := wordsOf message2
  if words1 = ∅ ∨ words2 = ∅ then 0
  else ((words1 ∩ words2).card : ℚ) / ((words1 ∪ words2).card : ℚ)

/-- Outcome of the numeric kernel of `calculate_message_similarity` (lines
108-119): `encode` both normalized messages, then take the cosine similarity
`dot/(‖a‖·‖b‖)`.  The floating-point linear algebra (including the square
roots in the norms) is abstracted into this outcome: `zeroNorm` models
`norm1 == 0 or norm2 == 0`; `value raw` is the computed raw cosine, which
floating point may place slightly outside `[-1, 1]`. -/
inductive SimOutcome where
  | zeroNorm
  | value (raw : ℚ)
  deriving Repr, DecidableEq

/-- The embedding model of `SmartDuplicateAnalyzer`: `none` models
`self.embedding_model is None` (load failure); `some f` models a loaded model,
where `f m1 m2 = none` models an exception raised while encoding. -/
def SimEncoder := Option (String → String → Option SimOutcome)

/-- `SmartDuplicateAnalyzer.calculate_message_similarity` (lines 96-124).
No model → word-overlap fallback; otherwise normalize both messages
(`strip().lower()`), run the encoder kernel, clamp the cosine to `[0,1]` via
`max(0.0, min(1.0, similarity))`, returning `0.0` on a zero norm; any
exception inside the `try` also degrades to the word-overlap fallback. -/
def calculate_message_similarity (enc : SimEncoder) (message1 message2 : String) : ℚ :=
  match enc with
  | none => basicTextSimilarity message1 message2
  | some f =>
    let msg1_norm := pyLower (pyStrip message1)
    let msg2_norm := pyLower (pyStrip message2)
    match f msg1_norm msg2_norm with
    | none => basicTextSimilarity message1 message2
    | some .zeroNorm => 0
    | some (.value raw) => max 0 (min 1 raw)

/-! ### Vector service (`src/services/vector_service.py`) -/

/-- `LeadInput` from `src/models` as consumed by `vector_service.py` and
`duplicate_service.py`: free-text message, contact, custom fields (dict in
insertion order). -/
structure LeadInput where
  message : String
  contact : ContactInfo
  custom_fields : List (String × String)
  deriving Repr, DecidableEq

/-- `EnrichedLead` as consumed by `add_lead`: the lead-input fields plus the
server-assigned id and receipt time (other enrichment fields are not
consulted by any claim). -/
structure EnrichedLead where
  id : UUID
  input : LeadInput
  received_at : Int
  deriving Repr, DecidableEq

/-- The vector-service error taxonomy (`vector_service.py` lines 17-29):
`EmbeddingError` and `ChromaDBError`, both subclasses of
`VectorServiceError`. -/
inductive VectorServiceError where
  | embeddingError (msg : String)
  | chromaDBError (msg : String)
  deriving Repr, DecidableEq

/-- Python `str(e)` of a vector-service error: its message. -/
def errText : VectorServiceError → String
  | .embeddingError msg => msg
  | .chromaDBError msg => msg

/-- The sentence-transformer model: `none` models `embedding_model is None`;
`some encode` a loaded model, where `encode text = .error msg` models an
exception (message `str(e)`) raised by `model.encode(...)`. -/
def EncModel := Option (String → Except String (List ℚ))

/-- `ChromaVectorService._prepare_lead_text` (lines 172-188): message, then
`Contact: <full_name>` and `Company: <company>` when truthy, then
`key: value` for each truthy custom-field value, joined by `" | "`. -/
def prepare_lead_text (lead : LeadInput) : String :=
  let text_parts := [lead.message]
    ++ (if truthy lead.contact.full_name then
          ["Contact: " ++ lead.contact.full_name.getD ""] else [])
    ++ (if truthy lead.contact.company then
          ["Company: " ++ lead.contact.company.getD ""] else [])
    ++ lead.custom_fields.filterMap (fun kv =>
          if kv.2.isEmpty then none else some (kv.1 ++ ": " ++ kv.2))
  String.intercalate " | " text_parts

/-- `ChromaVectorService._generate_embedding` (lines 148-165).  The `try`
block raises `EmbeddingError` for a missing model or empty normalized text
and may propagate an encoder exception; the `except` clause re-wraps any of
these as `EmbeddingError("Embedding generation failed: " + str(e))`. -/
def generate_embedding (model : EncModel) (text : String) : Except VectorServiceError (List ℚ) :=
  let inner : Except String (List ℚ) :=
    match model with
    | none => .error "Embedding model not initialized"
    | some encode =>
      let normalized_text := pyLower (pyStrip text)
      if normalized_text.isEmpty then .error "Empty text provided for embedding"
      else encode normalized_text
  match inner with
  | .ok v => .ok v
  | .error e => .error (.embeddingError ("Embedding generation failed: " ++ e))

/-- `ChromaVectorService._create_text_hash` (lines 167-170): SHA-256 of the
normalized text; the hash function itself is an external primitive, passed
in as `hashFn`. -/
def create_text_hash (hashFn : String → String) (text : String) : String :=
  hashFn (pyLower (pyStrip text))

/-- `VectorData` from `src/models`: the value returned by `add_lead`. -/
structure VectorData where
  embedding : List ℚ
  embedding_model : String
  text_hash : String
  deriving Repr, DecidableEq

/-- `ChromaVectorService.add_lead` (lines 190-246).  The whole body sits in a
`try` whose `except Exception` clause re-raises everything — including the
`EmbeddingError` for empty text — as
`ChromaDBError("Failed to add lead: " + str(e))`.  `collAdd` models the
`collection.add` call. -/
def add_lead (model : EncModel) (hashFn : String → String)
    (collAdd : Except String Unit) (lead : EnrichedLead) :
    Except VectorServiceError VectorData :=
  let body : Except String VectorData := do
    let lead_text := prepare_lead_text lead.input
    let text_hash := create_text_hash hashFn lead_text
    let embedding ← (generate_embedding model lead_text).mapError errText
    let _metadata : Metadata := {
      message := some (lead.input.message.take 500)
      received_at := some (some lead.received_at)
      contact_email := if truthy lead.input.contact.email then lead.input.contact.email else none
      contact_phone := none
      contact_name := if truthy lead.input.contact.full_name then lead.input.contact.full_name else none }
    let _ ← collAdd
    pure ⟨embedding, "all-MiniLM-L6-v2", text_hash⟩
  match body with
  | .ok v => .ok v
  | .error e => .error (.chromaDBError ("Failed to add lead: " ++ e))

/-- One row of a ChromaDB query response (`results["ids"][0][i]`,
`results["distances"][0][i]`, `results["metadatas"][0][i]`).  `id = none`
models an id string on which `UUID(...)` raises. -/
structure QueryRow where
  id : Option UUID
  distance : ℚ
  metadata : Metadata
  deriving Repr, DecidableEq

/-- `SimilarityResult` (`vector_service.py` lines 32-41).  `lead_id` is
`Option UUID` because the duplicate service later re-parses it defensively
(a `none` models a non-UUID id string). -/
structure SimilarityResult where
  lead_id : Option UUID
  similarity_score : ℚ
  metadata : Metadata
  deriving Repr, DecidableEq

/-- The result-processing loop of `find_similar_leads` (lines 271-287):
score each row as `1 − distance` (no clamping), keep rows with
`score >= threshold`, parse the id (`UUID(lead_id)` raises on a malformed
id, aborting the whole call). -/
def collectSimilar (threshold : ℚ) : List QueryRow → Except String (List SimilarityResult)
  | [] => .ok []
  | row :: rest =>
    let similarity_score := 1 - row.distance
    if threshold ≤ similarity_score then
      match row.id with
      | some _ =>
        match collectSimilar threshold rest with
        | .ok tail => .ok (⟨row.id, similarity_score, row.metadata⟩ :: tail)
        | .error e => .error e
      | none => .error "badly formed hexadecimal UUID string"
    else collectSimilar threshold rest

/-- Descending order on similarity scores, the key of the final
`similar_leads.sort(key=..., reverse=True)`. -/
def scoreRel (a b : SimilarityResult) : Prop :=
  b.similarity_score ≤ a.similarity_score

instance : DecidableRel scoreRel := fun a b =>
  inferInstanceAs (Decidable (b.similarity_score ≤ a.similarity_score))

instance : IsTotal SimilarityResult scoreRel :=
  ⟨fun a b => le_total b.similarity_score a.similarity_score⟩

instance : IsTrans SimilarityResult scoreRel :=
  ⟨fun _ _ _ h1 h2 => le_trans h2 h1⟩

/-- Python `x or default` for a float argument: `None` and `0.0` both fall
back to the default (`threshold = threshold or self.similarity_threshold`). -/
def orDefaultQ (x : Option ℚ) (d : ℚ) : ℚ :=
  match x with
  | none => d
  | some v => if v = 0 then d else v

/-- Python `x or default` for an int argument. -/
def orDefaultN (x : Option Nat) (d : Nat) : Nat :=
  match x with
  | none => d
  | some v => if v = 0 then d else v

/-- `ChromaVectorService.find_similar_leads` (lines 248-301).  `query`
models `collection.query` (takes the query embedding and `n_results`);
`default_threshold`/`default_limit` model the settings
`lead_similarity_threshold` (0.85) and `max_similar_leads` (5).  The
`except` clause wraps every failure — embedding errors included — as
`ChromaDBError("Similarity search failed: ...")`.  Python's stable
`list.sort(reverse=True)` is modelled by the stable `insertionSort`. -/
def find_similar_leads (model : EncModel)
    (query : List ℚ → Nat → Except String (List QueryRow))
    (default_threshold : ℚ) (default_limit : Nat)
    (lead : LeadInput) (threshold? : Option ℚ) (limit? : Option Nat) :
    Except VectorServiceError (List SimilarityResult) :=
  let threshold := orDefaultQ threshold? default_threshold
  let limit := orDefaultN limit? default_limit
  let body : Except String (List SimilarityResult) :=
    match generate_embedding model (prepare_lead_text lead) with
    | .error e => .error (errText e)
    | .ok query_embedding =>
      match query query_embedding limit with
      | .error e => .error e
      | .ok rows =>
        match collectSimilar threshold rows with
        | .error e => .error e
        | .ok similar => .ok (List.insertionSort scoreRel similar)
  match body with
  | .ok v => .ok v
  | .error e => .error (.chromaDBError ("Similarity search failed: " ++ e))

/-! ### Duplicate decision engine (`duplicate_service.py` lines 208-369) -/

/-- The four dispositions of `DuplicateAnalysisResult.action`. -/
inductive DupAction where
  | process
  | link
  | flag
  | merge
  deriving Repr, DecidableEq

/-- `DuplicateAnalysisResult` (`duplicate_service.py` lines 15-37).  The
human-readable `reason` strings are modelled by their static prefix (the
interpolated numbers are display-only and consulted by nothing). -/
structure DuplicateAnalysisResult where
  action : DupAction
  reason : String
  related_leads : List UUID
  parent_lead_id : Option UUID
  customer_sequence : Nat
  time_since_last : Option Int
  message_similarity : Option ℚ
  deriving Repr, DecidableEq

/-- The settings consumed by `SmartDuplicateAnalyzer.__init__` (lines 75-81);
none of the `duplicate_*` keys is defined in `config/settings.py`, so the
`getattr` defaults below are the operative configuration. -/
structure DuplicateConfig where
  duplicate_time_window_hours : Int
  duplicate_message_threshold : ℚ
  duplicate_suspicious_threshold : ℚ
  duplicate_suspicious_window_minutes : Int
  allow_same_contact_multiple_leads : Bool
  auto_link_related_leads : Bool
  flag_suspicious_duplicates : Bool
  deriving Repr, DecidableEq

/-- The `getattr` defaults: 24 h link window, 0.8 link threshold, 0.9
suspicious threshold, 60 min suspicious window, all flags on. -/
def defaultConfig : DuplicateConfig :=
  ⟨24, 8/10, 9/10, 60, true, true, true⟩

/-- The timestamp a history entry contributes after the engine's defaulting:
a missing `received_at` key reads as `'1970-01-01T00:00:00Z'` (which parses
to the epoch, `some 0`); a present entry contributes its parse outcome
(`none` = `fromisoformat` raises). -/
def recvParse (r : SimilarityResult) : Option Int :=
  match r.metadata.received_at with
  | none => some 0
  | some v => v

/-- `get_received_time` (lines 224-231): the sort key; an unparsable
timestamp falls back to `datetime(1970, 1, 1)`, the epoch. -/
def get_received_time (r : SimilarityResult) : Int :=
  (recvParse r).getD 0

/-- Most-recent-first order on history entries (`sorted(..., reverse=True)`
with key `get_received_time`). -/
def histRel (a b : SimilarityResult) : Prop :=
  get_received_time b ≤ get_received_time a

instance : DecidableRel histRel := fun a b =>
  inferInstanceAs (Decidable (get_received_time b ≤ get_received_time a))

instance : IsTotal SimilarityResult histRel :=
  ⟨fun a b => le_total (get_received_time b) (get_received_time a)⟩

instance : IsTrans SimilarityResult histRel :=
  ⟨fun _ _ _ h1 h2 => le_trans h2 h1⟩

/-- `sorted_history` (line 233): Python's stable descending sort, modelled by
the stable `insertionSort` under `histRel`. -/
def sorted_history (contact_history : List SimilarityResult) : List SimilarityResult :=
  List.insertionSort histRel contact_history

/-- `time_since_minutes` (lines 246-264): minutes (float division truncated
by `int(...)`, i.e. toward zero) between `now` and the entry's receipt time;
a timestamp that fails to parse falls back to `timedelta(hours=25)` =
90000 seconds. -/
def timeSinceMinutes (now : Int) (r : SimilarityResult) : Int :=
  match recvParse r with
  | some t => Int.tdiv (now - t) 60
  | none => Int.tdiv 90000 60

/-- The related-lead id collection loop (lines 288-294 / 317-323 / 342-348):
each entry of the sorted history contributes its id, entries whose id fails
to parse as a UUID are skipped (`continue`). -/
def relatedIds (sorted : List SimilarityResult) : List UUID :=
  sorted.filterMap (·.lead_id)

/-- The body of `analyze_lead_for_duplicates` inside its outer `try` (lines
214-360).  Empty history → first-contact result; otherwise sort, compute
time-since and similarity against the most recent entry, then first-match-wins:
flag (suspicious window), link (link window), process.  In the flag/link
branches the parent-id parse and the related-ids loop sit in one `try`: a
most-recent entry whose id fails to parse aborts that `try`, leaving
`parent_id = None` and `related_ids = []` (lines 295-298 / 324-327).  Every
failure point of the modelled fragment is locally handled, so this body
always returns `ok`; the `Except` layer mirrors the Python exception channel
that the outer handler consumes. -/
def analyzeCore (cfg : DuplicateConfig) (enc : SimEncoder) (now : Int)
    (new_lead : LeadInput) (contact_history : List SimilarityResult) :
    Except String DuplicateAnalysisResult :=
  if contact_history.isEmpty then
    .ok ⟨.process, "First lead from this contact", [], none, 1, none, none⟩
  else
    match sorted_history contact_history with
    | [] => .ok ⟨.process, "No valid contact history found", [], none, 1, none, none⟩
    | most_recent_lead :: rest =>
      let customer_sequence := contact_history.length + 1
      let time_since_minutes := timeSinceMinutes now most_recent_lead
      let message_similarity := calculate_message_similarity enc new_lead.message
        (most_recent_lead.metadata.message.getD "")
      if time_since_minutes < cfg.duplicate_suspicious_window_minutes
          ∧ cfg.duplicate_suspicious_threshold < message_similarity
          ∧ cfg.flag_suspicious_duplicates = true then
        match most_recent_lead.lead_id with
        | some parent_id =>
          .ok ⟨.flag, "Suspicious duplicate", relatedIds (most_recent_lead :: rest),
            some parent_id, customer_sequence, some time_since_minutes,
            some message_similarity⟩
        | none =>
          .ok ⟨.flag, "Suspicious duplicate", [], none, customer_sequence,
            some time_since_minutes, some message_similarity⟩
      else if time_since_minutes < cfg.duplicate_time_window_hours * 60
          ∧ cfg.duplicate_message_threshold < message_similarity
          ∧ cfg.auto_link_related_leads = true then
        match most_recent_lead.lead_id with
        | some parent_id =>
          .ok ⟨.link, "Related inquiry", relatedIds (most_recent_lead :: rest),
            some parent_id, customer_sequence, some time_since_minutes,
            some message_similarity⟩
        | none =>
          .ok ⟨.link, "Related inquiry", [], none, customer_sequence,
            some time_since_minutes, some message_similarity⟩
      else
        .ok ⟨.process, "New inquiry from existing contact",
          relatedIds (most_recent_lead :: rest), none, customer_sequence,
          some time_since_minutes, some message_similarity⟩

/-- `SmartDuplicateAnalyzer.analyze_lead_for_duplicates` (lines 208-369): the
body above wrapped by the outer `except Exception` handler (lines 362-369),
which defaults any escaped failure to `process`. -/
def analyze_lead_for_duplicates (cfg : DuplicateConfig) (enc : SimEncoder)
    (now : Int) (new_lead : LeadInput)
    (contact_history : List SimilarityResult) : DuplicateAnalysisResult :=
  match analyzeCore cfg enc now new_lead contact_history with
  | .ok r => r
  | .error _ =>
    ⟨.process, "Analysis failed, defaulting to process", [], none,
      (if contact_history.isEmpty then 1 else contact_history.length + 1),
      none, none⟩

/-! ### Enrichment pipeline (`src/api/intake.py` lines 77-132) and
`find_contact_history` (`duplicate_service.py` lines 139-187) -/

/-- Lead lifecycle states (`raw → processing → enriched → synced`, or
`failed`). -/
inductive LeadStatus where
  | raw
  | processing
  | enriched
  | synced
  | failed
  deriving Repr, DecidableEq

/-- The external AI analysis payload; a pass-through value for the pipeline
(its fields are not consulted by any claim beyond being carried). -/
structure AIAnalysis where
  quality_score : ℚ
  deriving Repr, DecidableEq

/-- The pipeline's view of an `EnrichedLead`: its status transitions and the
fields the pipeline writes.  `similar_leads` keeps the raw `lead_id` values
of the step-1 results. -/
structure PipelineLead where
  status : LeadStatus
  similar_leads : List (Option UUID)
  ai_analysis : Option AIAnalysis
  vector_data : Option VectorData
  synced_to : Option String
  error : Option String
  deriving Repr, DecidableEq

/-- `EnrichedLead.mark_failed`: status `failed` with the pipeline's error
message recorded. -/
def mark_failed (l : PipelineLead) (e : String) : PipelineLead :=
  { l with status := .failed, error := some ("Pipeline processing failed: " ++ e) }

/-- `process_lead_pipeline` (`intake.py` lines 77-132).  The four step
outcomes are supplied as `Except`-valued inputs: `step1` is the full-index
`find_similar_leads` call, `llm` the external AI analysis, `add` the index
write, `crm` the optional sync (`none` = not configured; `some (.ok b)` a
sync result with success flag `b`; `some (.error e)` a raised sync
exception).  The single `try` around all four steps marks the lead `failed`
and **re-raises** on any exception — including a step-1 similarity-lookup
error — so a step-1 failure aborts the pipeline (`.error` side) rather than
degrading to "no similar leads". -/
def process_lead_pipeline
    (step1 : Except String (List SimilarityResult))
    (llm : Except String AIAnalysis)
    (add : Except String VectorData)
    (crm : Option (Except String Bool)) :
    Except PipelineLead PipelineLead :=
  let l0 : PipelineLead := ⟨.processing, [], none, none, none, none⟩
  match step1 with
  | .error e => .error (mark_failed l0 e)
  | .ok similar_leads =>
    let l1 := if similar_leads.isEmpty then l0
      else { l0 with similar_leads := similar_leads.map (·.lead_id) }
    match llm with
    | .error e => .error (mark_failed l1 e)
    | .ok ai =>
      let l2 := { l1 with status := .enriched, ai_analysis := some ai }
      match add with
      | .error e => .error (mark_failed l2 e)
      | .ok vd =>
        let l3 := { l2 with vector_data := some vd }
        match crm with
        | none => .ok l3
        | some (.error e) => .error (mark_failed l3 e)
        | some (.ok success) =>
          .ok (if success then { l3 with status := .synced, synced_to := some "airtable" }
               else l3)

/-- `SmartDuplicateAnalyzer.find_contact_history` (`duplicate_service.py`
lines 139-187).  `simres` is the outcome of the vector-service call; the
whole body sits in a `try` whose `except Exception` returns `[]`.  Inside
the loop, a present-but-unparsable `received_at` makes
`datetime.fromisoformat` raise (caught by that outer handler); a missing or
empty one skips the window check.  `time_window_hours = some 0` is falsy in
Python, so no cutoff is applied then. -/
def find_contact_history (simres : Except String (List SimilarityResult))
    (contact : ContactInfo) (now : Int) (time_window_hours : Option Int) :
    List SimilarityResult :=
  let cutoff : Option Int :=
    match time_window_hours with
    | none => none
    | some w => if w = 0 then none else some (now - w * 3600)
  let body : Except String (List SimilarityResult) :=
    match simres with
    | .error e => .error e
    | .ok results =>
      results.foldlM (fun contact_leads result =>
        if is_same_contact_from_metadata contact result.metadata then
          match cutoff, result.metadata.received_at with
          | some c, some (some lead_time) =>
            if lead_time < c then pure contact_leads
            else pure (contact_leads ++ [result])
          | some _, some none => Except.error "Invalid isoformat string"
          | _, _ => pure (contact_leads ++ [result])
        else pure contact_leads) []
  match body with
  | .ok contact_leads => contact_leads
  | .error _ => []

/-! ### Theorems -/

/-- C8 counterexample: two contacts that both carry the phone number `"555"`
(fewer than 10 digits, identical last-10 comparison) but different names.
The claim's phone rule would match them; the code falls through to the name
comparison and reports no match. -/
theorem c8_counterexample :
    is_same_contact_from_metadata
      ⟨none, some "555", some "Alice", none⟩
      ⟨none, none, none, some "555", some "Bob"⟩ = false
    ∧ sameContactSpecC8
      ⟨none, some "555", some "Alice", none⟩
      ⟨none, none, none, some "555", some "Bob"⟩ = true := by
  constructor <;> decide

/-- C8 (corrected): `_is_same_contact_from_metadata` implements strict
precedence email → phone → name, where the phone comparison (last 10 digits
after stripping non-digits) decides the result only when both stripped phones
have at least 10 digits; otherwise the phone evidence is ignored and control
falls through to the case-insensitive trimmed name comparison. -/
theorem c8_contact_matcher_amended (c : ContactInfo) (m : Metadata) :
    is_same_contact_from_metadata c m = sameContactAmendedC8 c m := by
  unfold is_same_contact_from_metadata sameContactAmendedC8
  by_cases he : (truthy c.email && truthy m.contact_email) = true
  · simp [he]
  · simp only [Bool.not_eq_true] at he
    by_cases hp : (truthy c.phone && truthy m.contact_phone) = true
    · by_cases hl : 10 ≤ (digitsOf (c.phone.getD "")).length
        ∧ 10 ≤ (digitsOf (m.contact_phone.getD "")).length
      · simp [he, hp, hl.1, hl.2]
      · have : ((truthy c.phone && truthy m.contact_phone)
            && (decide (10 ≤ (digitsOf (c.phone.getD "")).length)
                && decide (10 ≤ (digitsOf (m.contact_phone.getD "")).length))) = false := by
          rcases not_and_or.mp hl with h | h <;>
            simp [hp, h]
        simp [he, hp, hl, this]
    · simp only [Bool.not_eq_true] at hp
      simp [he, hp]

/-- The word-overlap fallback lies in `[0,1]`. -/
theorem basicTextSimilarity_mem_unit (m1 m2 : String) :
    0 ≤ basicTextSimilarity m1 m2 ∧ basicTextSimilarity m1 m2 ≤ 1 := by
  unfold basicTextSimilarity
  by_cases h : wordsOf m1 = ∅ ∨ wordsOf m2 = ∅
  · simp [h]
  · push_neg at h
    simp only [h, if_neg, or_self, ite_false]
    have hsub : wordsOf m1 ∩ wordsOf m2 ⊆ wordsOf m1 ∪ wordsOf m2 :=
      (Finset.inter_subset_left).trans Finset.subset_union_left
    have hpos : 0 < ((wordsOf m1 ∪ wordsOf m2).card : ℚ) := by
      have : (wordsOf m1 ∪ wordsOf m2).Nonempty := by
        rcases Finset.nonempty_iff_ne_empty.mpr h.1 with ⟨x, hx⟩
        exact ⟨x, Finset.mem_union_left _ hx⟩
      exact_mod_cast Finset.card_pos.mpr this
    constructor
    · positivity
    · rw [div_le_one hpos]
      exact_mod_cast Finset.card_le_card hsub

/-- Every value of `calculate_message_similarity` lies in `[0,1]`. -/
theorem calculate_message_similarity_mem_unit (enc : SimEncoder) (m1 m2 : String) :
    0 ≤ calculate_message_similarity enc m1 m2
      ∧ calculate_message_similarity enc m1 m2 ≤ 1 := by
  rcases enc with _ | f
  · exact basicTextSimilarity_mem_unit m1 m2
  · rcases hf : f (pyLower (pyStrip m1)) (pyLower (pyStrip m2)) with _ | o
    · simpa [calculate_message_similarity, hf] using basicTextSimilarity_mem_unit m1 m2
    · rcases o with _ | raw
      · simp [calculate_message_similarity, hf]
      · simp only [calculate_message_similarity, hf]
        refine ⟨le_max_left 0 _, max_le (by norm_num) (min_le_left 1 raw)⟩

/-- C10 (confirmed): `calculate_message_similarity` is total and always
returns a value in `[0,1]`; when the embedding model is unavailable, or the
encoding step fails, it returns the Jaccard word-overlap similarity of the
two lowercased messages, which is `0.0` whenever either message has no words.
(Totality holds by construction: every failure path of the Python `try` block
is modelled and lands in the fallback.) -/
theorem c10_similarity_total_bounded (enc : SimEncoder) (m1 m2 : String) :
    (0 ≤ calculate_message_similarity enc m1 m2
      ∧ calculate_message_similarity enc m1 m2 ≤ 1)
    ∧ (enc = none →
        calculate_message_similarity enc m1 m2 = basicTextSimilarity m1 m2)
    ∧ (∀ f, enc = some f →
        f (pyLower (pyStrip m1)) (pyLower (pyStrip m2)) = none →
        calculate_message_similarity enc m1 m2 = basicTextSimilarity m1 m2)
    ∧ ((wordsOf m1 = ∅ ∨ wordsOf m2 = ∅) → basicTextSimilarity m1 m2 = 0) := by
  refine ⟨calculate_message_similarity_mem_unit enc m1 m2, ?_, ?_, ?_⟩
  · rintro rfl; rfl
  · rintro f rfl hf
    simp [calculate_message_similarity, hf]
  · intro h
    unfold basicTextSimilarity
    simp [h]

/-- C10 witness: the theorem applied at the concrete input
`enc = none`, messages `"hello world"` / `"hello there"`. -/
theorem c10_witness :
    (0 ≤ calculate_message_similarity none "hello world" "hello there"
      ∧ calculate_message_similarity none "hello world" "hello there" ≤ 1)
    ∧ calculate_message_similarity none "hello world" "hello there"
        = basicTextSimilarity "hello world" "hello there" := by
  have h := c10_similarity_total_bounded none "hello world" "hello there"
  exact ⟨h.1, h.2.1 rfl⟩

/-- C6 counterexample: a lead whose normalized concatenated text is empty
(empty message, no contact fields, no custom fields), submitted to `add_lead`
with a loaded encoder.  The internal `EmbeddingError` is re-wrapped by
`add_lead`'s blanket `except Exception` clause, so the caller observes a
`ChromaDBError`, not an `EmbeddingError`. -/
theorem c6_counterexample :
    add_lead (some fun _ => .ok [1]) id (.ok ())
      ⟨0, ⟨"", ⟨none, none, none, none⟩, []⟩, 0⟩
      = .error (.chromaDBError
          "Failed to add lead: Embedding generation failed: Empty text provided for embedding") := by
  rfl

/-- C6 (corrected): for every lead whose normalized concatenated text is
empty, the embedding step raises
`EmbeddingError("Embedding generation failed: Empty text provided for embedding")`,
and `add_lead` rejects the lead — but its blanket handler re-raises the
failure as `ChromaDBError("Failed to add lead: ...")`, so the error type the
caller of `Add` sees is `ChromaDBError`, wrapping the embedding failure. -/
theorem c6_add_rejects_empty_text (encode : String → Except String (List ℚ))
    (hashFn : String → String) (collAdd : Except String Unit) (lead : EnrichedLead)
    (hempty : (pyLower (pyStrip (prepare_lead_text lead.input))).isEmpty = true) :
    generate_embedding (some encode) (prepare_lead_text lead.input)
        = .error (.embeddingError "Embedding generation failed: Empty text provided for embedding")
    ∧ add_lead (some encode) hashFn collAdd lead
        = .error (.chromaDBError
            "Failed to add lead: Embedding generation failed: Empty text provided for embedding") := by
  have hg : generate_embedding (some encode) (prepare_lead_text lead.input)
      = .error (.embeddingError "Embedding generation failed: Empty text provided for embedding") := by
    simp [generate_embedding, hempty]
  refine ⟨hg, ?_⟩
  simp only [add_lead, hg, Except.mapError, errText]
  rfl

/-- C6 witness: the corrected theorem applied to the concrete all-empty lead. -/
theorem c6_witness :
    generate_embedding (some fun _ => Except.ok [1])
        (prepare_lead_text (⟨0, ⟨"", ⟨none, none, none, none⟩, []⟩, 0⟩ : EnrichedLead).input)
        = .error (.embeddingError "Embedding generation failed: Empty text provided for embedding")
    ∧ add_lead (some fun _ => Except.ok [1]) id (.ok ())
        ⟨0, ⟨"", ⟨none, none, none, none⟩, []⟩, 0⟩
        = .error (.chromaDBError
            "Failed to add lead: Embedding generation failed: Empty text provided for embedding") :=
  c6_add_rejects_empty_text (fun _ => Except.ok [1]) id (.ok ())
    ⟨0, ⟨"", ⟨none, none, none, none⟩, []⟩, 0⟩ rfl

/-- When every row id parses, the result loop succeeds and keeps exactly the
rows clearing the threshold, scored `1 − distance`, in row order. -/
theorem collectSimilar_all_ok (threshold : ℚ) :
    ∀ rows : List QueryRow, (∀ row ∈ rows, row.id.isSome) →
      collectSimilar threshold rows
        = .ok (rows.filterMap fun row =>
            if threshold ≤ 1 - row.distance then
              some ⟨row.id, 1 - row.distance, row.metadata⟩
            else none)
  | [], _ => rfl
  | row :: rest, h => by
    have hrow : row.id.isSome := h row (List.mem_cons_self row rest)
    have hrest := collectSimilar_all_ok threshold rest
      (fun r hr => h r (List.mem_cons_of_mem row hr))
    rcases Option.isSome_iff_exists.mp hrow with ⟨i, hi⟩
    by_cases hth : threshold ≤ 1 - row.distance
    · simp [collectSimilar, hth, hi, hrest, List.filterMap_cons]
    · simp [collectSimilar, hth, hrest, List.filterMap_cons]

/-- Every successfully collected result is a threshold-clearing row scored
`1 − distance`. -/
theorem collectSimilar_ok_mem (threshold : ℚ) :
    ∀ (rows : List QueryRow) (sims : List SimilarityResult),
      collectSimilar threshold rows = .ok sims →
      ∀ r ∈ sims, ∃ row ∈ rows,
        r = ⟨row.id, 1 - row.distance, row.metadata⟩
          ∧ threshold ≤ 1 - row.distance
  | [], sims, h, r, hr => by
    simp only [collectSimilar] at h
    cases h
    simp at hr
  | row :: rest, sims, h, r, hr => by
    by_cases hth : threshold ≤ 1 - row.distance
    · rcases hid : row.id with _ | i
      · simp [collectSimilar, hth, hid] at h
      · rcases hrest : collectSimilar threshold rest with e | tail
        · simp [collectSimilar, hth, hid, hrest] at h
        · simp only [collectSimilar, if_pos hth, hid, hrest] at h
          cases h
          rcases List.mem_cons.mp hr with rfl | htail
          · exact ⟨row, List.mem_cons_self row rest, by rw [hid], hth⟩
          · rcases collectSimilar_ok_mem threshold rest tail hrest r htail
              with ⟨row2, hm, he, hth2⟩
            exact ⟨row2, List.mem_cons_of_mem row hm, he, hth2⟩
    · simp only [collectSimilar, if_neg hth] at h
      rcases collectSimilar_ok_mem threshold rest sims h r hr
        with ⟨row2, hm, he, hth2⟩
      exact ⟨row2, List.mem_cons_of_mem row hm, he, hth2⟩

/-- Successful path of `find_similar_leads`: the returned list is the
stable descending sort of the collected results. -/
theorem find_similar_leads_eq (model : EncModel)
    (query : List ℚ → Nat → Except String (List QueryRow))
    (dTh : ℚ) (dLim : Nat) (lead : LeadInput)
    (th? : Option ℚ) (lim? : Option Nat)
    (emb : List ℚ) (rows : List QueryRow) (sims : List SimilarityResult)
    (hemb : generate_embedding model (prepare_lead_text lead) = .ok emb)
    (hq : query emb (orDefaultN lim? dLim) = .ok rows)
    (hcol : collectSimilar (orDefaultQ th? dTh) rows = .ok sims) :
    find_similar_leads model query dTh dLim lead th? lim?
      = .ok (List.insertionSort scoreRel sims) := by
  simp only [find_similar_leads, hemb, hq, hcol]

/-- C7 (confirmed): on the successful query path (embedding computed, index
query returns at most the requested `n_results = limit` rows, every stored id
well-formed), `find_similar_leads` returns — without error — a list sorted
descending by similarity score, in which every score equals `1 − distance`
of some queried row, no score is below the (defaulted) threshold, and whose
length is at most the (defaulted) limit; when no row clears the threshold the
result is the empty list, still not an error. -/
theorem c7_find_similar_contract (model : EncModel)
    (query : List ℚ → Nat → Except String (List QueryRow))
    (dTh : ℚ) (dLim : Nat) (lead : LeadInput)
    (th? : Option ℚ) (lim? : Option Nat)
    (emb : List ℚ) (rows : List QueryRow)
    (hemb : generate_embedding model (prepare_lead_text lead) = .ok emb)
    (hq : query emb (orDefaultN lim? dLim) = .ok rows)
    (hlen : rows.length ≤ orDefaultN lim? dLim)
    (hids : ∀ row ∈ rows, row.id.isSome) :
    ∃ out, find_similar_leads model query dTh dLim lead th? lim? = .ok out
      ∧ List.Sorted scoreRel out
      ∧ (∀ r ∈ out, orDefaultQ th? dTh ≤ r.similarity_score)
      ∧ (∀ r ∈ out, ∃ row ∈ rows, r.similarity_score = 1 - row.distance)
      ∧ out.length ≤ orDefaultN lim? dLim
      ∧ ((∀ row ∈ rows, 1 - row.distance < orDefaultQ th? dTh) → out = []) := by
  have hcol := collectSimilar_all_ok (orDefaultQ th? dTh) rows hids
  set f : QueryRow → Option SimilarityResult := fun row =>
    if orDefaultQ th? dTh ≤ 1 - row.distance then
      some ⟨row.id, 1 - row.distance, row.metadata⟩
    else none with hf
  refine ⟨List.insertionSort scoreRel (rows.filterMap f),
    find_similar_leads_eq model query dTh dLim lead th? lim? emb rows _ hemb hq hcol,
    List.sorted_insertionSort scoreRel _, ?_, ?_, ?_, ?_⟩
  · intro r hr
    have hmem : r ∈ rows.filterMap f :=
      (List.perm_insertionSort scoreRel _).mem_iff.mp hr
    rcases List.mem_filterMap.mp hmem with ⟨row, _, hrow⟩
    by_cases hth : orDefaultQ th? dTh ≤ 1 - row.distance
    · simp only [hf, if_pos hth] at hrow
      cases hrow
      exact hth
    · simp [hf, if_neg hth] at hrow
  · intro r hr
    have hmem : r ∈ rows.filterMap f :=
      (List.perm_insertionSort scoreRel _).mem_iff.mp hr
    rcases List.mem_filterMap.mp hmem with ⟨row, hrowmem, hrow⟩
    by_cases hth : orDefaultQ th? dTh ≤ 1 - row.distance
    · simp only [hf, if_pos hth] at hrow
      cases hrow
      exact ⟨row, hrowmem, rfl⟩
    · simp [hf, if_neg hth] at hrow
  · calc (List.insertionSort scoreRel (rows.filterMap f)).length
        = (rows.filterMap f).length :=
          (List.perm_insertionSort scoreRel _).length_eq
      _ ≤ rows.length := List.length_filterMap_le f rows
      _ ≤ orDefaultN lim? dLim := hlen
  · intro hbelow
    have : rows.filterMap f = [] := by
      rw [List.filterMap_eq_nil_iff]
      intro row hrow
      simp [hf, not_le.mpr (hbelow row hrow)]
    rw [this]
    rfl

/-- C7 witness: the contract applied to a one-row query response
(`distance 0`, well-formed id, threshold `1`, limit `3`). -/
theorem c7_witness :
    ∃ out, find_similar_leads (some fun _ => .ok [1])
        (fun _ _ => .ok [⟨some 5, 0, ⟨none, none, none, none, none⟩⟩])
        (17/20) 5 ⟨"hi", ⟨none, none, none, none⟩, []⟩ (some 1) (some 3)
        = .ok out
      ∧ List.Sorted scoreRel out
      ∧ (∀ r ∈ out, orDefaultQ (some 1) (17/20) ≤ r.similarity_score)
      ∧ (∀ r ∈ out, ∃ row ∈ [(⟨some 5, 0, ⟨none, none, none, none, none⟩⟩ : QueryRow)],
          r.similarity_score = 1 - row.distance)
      ∧ out.length ≤ orDefaultN (some 3) 5
      ∧ ((∀ row ∈ [(⟨some 5, 0, ⟨none, none, none, none, none⟩⟩ : QueryRow)],
          1 - row.distance < orDefaultQ (some 1) (17/20)) → out = []) :=
  c7_find_similar_contract (some fun _ => .ok [1])
    (fun _ _ => .ok [⟨some 5, 0, ⟨none, none, none, none, none⟩⟩])
    (17/20) 5 ⟨"hi", ⟨none, none, none, none⟩, []⟩ (some 1) (some 3)
    [1] [⟨some 5, 0, ⟨none, none, none, none, none⟩⟩]
    rfl rfl (by decide) (by decide)

/-- C5 counterexample: a query row whose index distance is `-1` (cosine
distances lie in `[0,2]` mathematically, but floating point can go below 0).
`find_similar_leads` returns its score as `1 − (−1) = 2`, a produced
similarity score outside `[0,1]`: no clamping happens before the threshold
comparison or in the returned result. -/
theorem c5_counterexample :
    find_similar_leads (some fun _ => .ok [1])
        (fun _ _ => .ok [⟨some 7, -1, ⟨none, none, none, none, none⟩⟩])
        (17/20) 5 ⟨"hi", ⟨none, none, none, none⟩, []⟩ (some 1) (some 5)
      = .ok [⟨some 7, 2, ⟨none, none, none, none, none⟩⟩]
    ∧ ¬((2 : ℚ) ≤ 1) := by
  constructor
  · have h2 : (1 : ℚ) - (-1) = 2 := by norm_num
    have hth : orDefaultQ (some 1) (17/20) = 1 := by
      simp [orDefaultQ]
    have hcol : collectSimilar (orDefaultQ (some 1) (17/20))
        [⟨some 7, -1, ⟨none, none, none, none, none⟩⟩]
        = .ok [⟨some 7, 2, ⟨none, none, none, none, none⟩⟩] := by
      simp only [collectSimilar, hth, h2]
      norm_num
    exact find_similar_leads_eq (some fun _ => .ok [1])
      (fun _ _ => .ok [⟨some 7, -1, ⟨none, none, none, none, none⟩⟩])
      (17/20) 5 ⟨"hi", ⟨none, none, none, none⟩, []⟩ (some 1) (some 5)
      [1] [⟨some 7, -1, ⟨none, none, none, none, none⟩⟩]
      [⟨some 7, 2, ⟨none, none, none, none, none⟩⟩] rfl rfl hcol
  · norm_num

/-- C5 (corrected): clamping into `[0,1]` happens only in the standalone
message-to-message similarity (`calculate_message_similarity`), before any
threshold comparison there; the per-result scores of `FindSimilar` are
computed as `1 − distance` with no clamping, so they lie in `[0,1]` only when
the index distance does. -/
theorem c5_similarity_bounds_amended (enc : SimEncoder) (m1 m2 : String)
    (threshold : ℚ) (rows : List QueryRow) (sims : List SimilarityResult)
    (hcol : collectSimilar threshold rows = .ok sims) :
    (0 ≤ calculate_message_similarity enc m1 m2
      ∧ calculate_message_similarity enc m1 m2 ≤ 1)
    ∧ (∀ r ∈ sims, ∃ row ∈ rows,
        r.similarity_score = 1 - row.distance
          ∧ (0 ≤ r.similarity_score ∧ r.similarity_score ≤ 1
              ↔ 0 ≤ row.distance ∧ row.distance ≤ 1)) := by
  refine ⟨calculate_message_similarity_mem_unit enc m1 m2, ?_⟩
  intro r hr
  rcases collectSimilar_ok_mem threshold rows sims hcol r hr with ⟨row, hm, he, _⟩
  subst he
  refine ⟨row, hm, rfl, ?_⟩
  dsimp only
  constructor
  · rintro ⟨h0, h1⟩
    constructor <;> linarith
  · rintro ⟨h0, h1⟩
    constructor <;> linarith

/-- C5 witness: the amended statement at the concrete one-row response of the
counterexample input (`distance −1`, threshold `1`). -/
theorem c5_witness :
    ((0 ≤ calculate_message_similarity none "a" "b"
      ∧ calculate_message_similarity none "a" "b" ≤ 1)
    ∧ (∀ r ∈ [(⟨some 7, 2, ⟨none, none, none, none, none⟩⟩ : SimilarityResult)],
        ∃ row ∈ [(⟨some 7, -1, ⟨none, none, none, none, none⟩⟩ : QueryRow)],
          r.similarity_score = 1 - row.distance
            ∧ (0 ≤ r.similarity_score ∧ r.similarity_score ≤ 1
                ↔ 0 ≤ row.distance ∧ row.distance ≤ 1))) :=
  c5_similarity_bounds_amended none "a" "b" 1
    [⟨some 7, -1, ⟨none, none, none, none, none⟩⟩]
    [⟨some 7, 2, ⟨none, none, none, none, none⟩⟩]
    (by simp only [collectSimilar]; norm_num)

/-- The engine body never surfaces an exception: every failure point of the
decision engine is locally handled, so the outer `except` is never the one
producing the result. -/
theorem analyzeCore_isOk (cfg : DuplicateConfig) (enc : SimEncoder) (now : Int)
    (new_lead : LeadInput) (contact_history : List SimilarityResult) :
    (analyzeCore cfg enc now new_lead contact_history).isOk = true := by
  simp only [analyzeCore]
  repeat' (first | rfl | split)

/-- C9 (confirmed): with an empty contact history the engine returns
`process`, customer sequence 1, no parent lead, and an empty related-leads
list. -/
theorem c9_first_contact (cfg : DuplicateConfig) (enc : SimEncoder) (now : Int)
    (lead : LeadInput) :
    (analyze_lead_for_duplicates cfg enc now lead []).action = .process
    ∧ (analyze_lead_for_duplicates cfg enc now lead []).customer_sequence = 1
    ∧ (analyze_lead_for_duplicates cfg enc now lead []).parent_lead_id = none
    ∧ (analyze_lead_for_duplicates cfg enc now lead []).related_leads = [] :=
  ⟨rfl, rfl, rfl, rfl⟩

/-- A cons-shaped sorted history forces a non-empty input history. -/
theorem isEmpty_false_of_sorted_cons {hist : List SimilarityResult}
    {mr : SimilarityResult} {rest : List SimilarityResult}
    (hs : sorted_history hist = mr :: rest) : hist.isEmpty = false := by
  cases hist with
  | nil => simp [sorted_history, List.insertionSort] at hs
  | cons a l => rfl

/-- C1 (confirmed): when the most recent history entry (head of the engine's
own most-recent-first sort) satisfies the suspicious condition (time below
the suspicious window, similarity above the suspicious threshold, flagging
enabled) and simultaneously the link condition (time below the link window,
similarity above the link threshold, linking enabled), the engine returns
`flag`, never `link`: the flag branch is tested first and first match wins. -/
theorem c1_flag_over_link (cfg : DuplicateConfig) (enc : SimEncoder) (now : Int)
    (lead : LeadInput) (hist : List SimilarityResult)
    (mr : SimilarityResult) (rest : List SimilarityResult)
    (hs : sorted_history hist = mr :: rest)
    (hfw : timeSinceMinutes now mr < cfg.duplicate_suspicious_window_minutes)
    (hfs : cfg.duplicate_suspicious_threshold
      < calculate_message_similarity enc lead.message (mr.metadata.message.getD ""))
    (hfe : cfg.flag_suspicious_duplicates = true)
    (hlw : timeSinceMinutes now mr < cfg.duplicate_time_window_hours * 60)
    (hls : cfg.duplicate_message_threshold
      < calculate_message_similarity enc lead.message (mr.metadata.message.getD ""))
    (hle : cfg.auto_link_related_leads = true) :
    (analyze_lead_for_duplicates cfg enc now lead hist).action = .flag := by
  have hne := isEmpty_false_of_sorted_cons hs
  simp only [analyze_lead_for_duplicates, analyzeCore, hne, Bool.false_eq_true,
    if_false, hs]
  rw [if_pos ⟨hfw, hfs, hfe⟩]
  cases hid : mr.lead_id <;> simp [hid]

/-- C1 witness: the priority theorem at a concrete single-entry history whose
entry satisfies both the suspicious and the link condition (time 0 minutes,
raw similarity 1, thresholds 0, all flags on). -/
theorem c1_witness :
    (analyze_lead_for_duplicates ⟨24, 0, 0, 60, true, true, true⟩
        (some fun _ _ => some (.value 1)) 0 ⟨"x", ⟨none, none, none, none⟩, []⟩
        [⟨some 3, 0, ⟨some "x", some (some 0), none, none, none⟩⟩]).action = .flag :=
  c1_flag_over_link ⟨24, 0, 0, 60, true, true, true⟩
    (some fun _ _ => some (.value 1)) 0 ⟨"x", ⟨none, none, none, none⟩, []⟩
    [⟨some 3, 0, ⟨some "x", some (some 0), none, none, none⟩⟩]
    ⟨some 3, 0, ⟨some "x", some (some 0), none, none, none⟩⟩ []
    rfl (by decide)
    (by simp [calculate_message_similarity]) rfl (by decide)
    (by simp [calculate_message_similarity]) rfl

/-- C4 (confirmed): no failure inside the decision engine propagates: the
engine body always returns a result (first conjunct — the outer `except
Exception` therefore never re-raises), and with the operative default
configuration an unparsable most-recent timestamp (the `datetime.fromisoformat`
failure handled at lines 261-263 by the 25-hour fallback, which exceeds both
the 60-minute suspicious window and the 24-hour link window) yields action
`process`. -/
theorem c4_engine_never_raises (cfg : DuplicateConfig) (enc : SimEncoder)
    (now : Int) (lead : LeadInput) (hist : List SimilarityResult)
    (mr : SimilarityResult) (rest : List SimilarityResult) :
    (∃ r, analyzeCore cfg enc now lead hist = .ok r)
    ∧ (sorted_history hist = mr :: rest → recvParse mr = none →
        (analyze_lead_for_duplicates defaultConfig enc now lead hist).action
          = .process) := by
  constructor
  · have h := analyzeCore_isOk cfg enc now lead hist
    rcases hc : analyzeCore cfg enc now lead hist with e | r
    · rw [hc] at h
      simp [Except.isOk, Except.toBool] at h
    · exact ⟨r, rfl⟩
  · intro hs hparse
    have hne := isEmpty_false_of_sorted_cons hs
    have ht : timeSinceMinutes now mr = 1500 := by
      simp only [timeSinceMinutes, hparse]
      decide
    simp only [analyze_lead_for_duplicates, analyzeCore, hne, Bool.false_eq_true,
      if_false, hs, ht]
    rw [if_neg (fun hcond => absurd hcond.1 (by decide)),
      if_neg (fun hcond => absurd hcond.1 (by decide))]

/-- C4 witness: the theorem at a concrete one-entry history whose
`received_at` string is present but unparsable. -/
theorem c4_witness :
    (∃ r, analyzeCore defaultConfig none 0 ⟨"x", ⟨none, none, none, none⟩, []⟩
        [⟨some 1, 0, ⟨some "x", some none, none, none, none⟩⟩] = .ok r)
    ∧ (analyze_lead_for_duplicates defaultConfig none 0
        ⟨"x", ⟨none, none, none, none⟩, []⟩
        [⟨some 1, 0, ⟨some "x", some none, none, none, none⟩⟩]).action = .process :=
  ⟨(c4_engine_never_raises defaultConfig none 0 ⟨"x", ⟨none, none, none, none⟩, []⟩
      [⟨some 1, 0, ⟨some "x", some none, none, none, none⟩⟩]
      ⟨some 1, 0, ⟨some "x", some none, none, none, none⟩⟩ []).1,
   (c4_engine_never_raises defaultConfig none 0 ⟨"x", ⟨none, none, none, none⟩, []⟩
      [⟨some 1, 0, ⟨some "x", some none, none, none, none⟩⟩]
      ⟨some 1, 0, ⟨some "x", some none, none, none, none⟩⟩ []).2 rfl rfl⟩

/-- C3 counterexample: three history entries supplied in the order
(id 1, receipt 100), (unparsable id, receipt 300), (id 2, receipt 200), far
in the past, so the `process` branch runs.  The returned `related_leads` is
`[2, 1]` — sorted most-recent-first with the unparsable id skipped — not the
supplied id order, and not containing every supplied id. -/
theorem c3_counterexample :
    (analyze_lead_for_duplicates defaultConfig none 1000000
        ⟨"x", ⟨none, none, none, none⟩, []⟩
        [⟨some 1, 0, ⟨some "x", some (some 100), none, none, none⟩⟩,
         ⟨none, 0, ⟨some "x", some (some 300), none, none, none⟩⟩,
         ⟨some 2, 0, ⟨some "x", some (some 200), none, none, none⟩⟩]).related_leads
      = [2, 1]
    ∧ ([2, 1] : List UUID) ≠ [1, 2] := by
  constructor
  · rfl
  · decide

/-- C3 (corrected): for a non-empty history all of whose entry ids parse,
every branch returns `related_leads` equal to the ids of the engine's own
sorted history — every supplied id, ordered most-recent-first by the stored
receipt timestamp (a permutation of the supplied history, sorted descending),
not in supplied order.  (When the most recent entry's id does not parse, the
flag/link branches return an empty list instead — excluded here by the
parseability hypothesis; unparsable ids are always skipped.) -/
theorem c3_related_leads_amended (cfg : DuplicateConfig) (enc : SimEncoder)
    (now : Int) (lead : LeadInput) (hist : List SimilarityResult)
    (hne : hist ≠ [])
    (hids : ∀ e ∈ hist, e.lead_id.isSome) :
    (analyze_lead_for_duplicates cfg enc now lead hist).related_leads
        = relatedIds (sorted_history hist)
    ∧ (sorted_history hist).Perm hist
    ∧ List.Sorted histRel (sorted_history hist) := by
  refine ⟨?_, List.perm_insertionSort histRel hist,
    List.sorted_insertionSort histRel hist⟩
  have hemp : hist.isEmpty = false := by
    cases hist with
    | nil => exact absurd rfl hne
    | cons a l => rfl
  rcases hs : sorted_history hist with _ | ⟨mr, rest⟩
  · have hp : (sorted_history hist).Perm hist := List.perm_insertionSort histRel hist
    rw [hs] at hp
    exact absurd hp.symm.eq_nil hne
  · have hmr : mr.lead_id.isSome := by
      apply hids
      have hp : (sorted_history hist).Perm hist := List.perm_insertionSort histRel hist
      rw [hs] at hp
      exact hp.subset (List.mem_cons_self mr rest)
    rcases Option.isSome_iff_exists.mp hmr with ⟨pid, hpid⟩
    simp only [analyze_lead_for_duplicates, analyzeCore, hemp, Bool.false_eq_true,
      if_false, hs]
    split_ifs with h1 h2
    · simp [hpid]
    · simp [hpid]
    · simp

/-- C3 witness: the amended theorem at a concrete two-entry history supplied
oldest-first with parseable ids. -/
theorem c3_witness :
    (analyze_lead_for_duplicates defaultConfig none 1000000
        ⟨"x", ⟨none, none, none, none⟩, []⟩
        [⟨some 1, 0, ⟨some "x", some (some 100), none, none, none⟩⟩,
         ⟨some 2, 0, ⟨some "x", some (some 200), none, none, none⟩⟩]).related_leads
      = relatedIds (sorted_history
          [⟨some 1, 0, ⟨some "x", some (some 100), none, none, none⟩⟩,
           ⟨some 2, 0, ⟨some "x", some (some 200), none, none, none⟩⟩])
    ∧ (sorted_history
        [⟨some 1, 0, ⟨some "x", some (some 100), none, none, none⟩⟩,
         ⟨some 2, 0, ⟨some "x", some (some 200), none, none, none⟩⟩]).Perm
        [⟨some 1, 0, ⟨some "x", some (some 100), none, none, none⟩⟩,
         ⟨some 2, 0, ⟨some "x", some (some 200), none, none, none⟩⟩]
    ∧ List.Sorted histRel (sorted_history
        [⟨some 1, 0, ⟨some "x", some (some 100), none, none, none⟩⟩,
         ⟨some 2, 0, ⟨some "x", some (some 200), none, none, none⟩⟩]) :=
  c3_related_leads_amended defaultConfig none 1000000
    ⟨"x", ⟨none, none, none, none⟩, []⟩
    [⟨some 1, 0, ⟨some "x", some (some 100), none, none, none⟩⟩,
     ⟨some 2, 0, ⟨some "x", some (some 200), none, none, none⟩⟩]
    (List.cons_ne_nil _ _) (by decide)

/-- C2 counterexample: an index error raised during the pipeline's step-1
similarity lookup.  The pipeline does not continue: it returns the error
side with the lead marked `failed` — the lead is not treated as new, and its
intake processing is blocked. -/
theorem c2_counterexample :
    process_lead_pipeline (.error "Similarity search failed: index unavailable")
        (.ok ⟨80⟩) (.ok ⟨[1], "all-MiniLM-L6-v2", "h"⟩) none
      = .error ⟨.failed, [], none, none, none,
          some "Pipeline processing failed: Similarity search failed: index unavailable"⟩ :=
  rfl

/-- C2 (corrected): the two halves of the propagation policy as the code
implements them.  Errors inside `find_contact_history` — the contact-scoped
duplicate check — are caught and degrade to an empty history ("treat as new
lead"); but an embedding/index error in the pipeline's step-1 full-index
similarity lookup propagates: the pipeline marks the lead `failed` and
aborts instead of continuing. -/
theorem c2_step1_error_policy (e : String) (contact : ContactInfo)
    (now : Int) (twh : Option Int)
    (llm : Except String AIAnalysis) (add : Except String VectorData)
    (crm : Option (Except String Bool)) :
    find_contact_history (.error e) contact now twh = []
    ∧ ∃ fl, process_lead_pipeline (.error e) llm add crm = .error fl
        ∧ fl.status = .failed :=
  ⟨rfl, ⟨_, rfl, rfl⟩⟩
